import Mathlib

/-!
Verification development for the UnrealSharp concurrency-safety core:
the atomic hot-reload state machine (`CSAtomicHotReloadState.cpp/.h`),
the bounded managed-callback gateway (`CSThreadSafeManagedCallbacks.cpp/.h`)
and the concurrency-violation monitor (`CSConcurrencyMonitor.cpp/.h`).

Modelling conventions:
- `double` fields and millisecond durations are modelled as `Rat` (the values
  the code compares -- `30.0 * 1000.0`, `50.0`, `0.9 * avg + 0.1 * t` -- are
  exact in rationals; no claim depends on floating-point rounding).
- `int32`/`uint64` counters are modelled as `Int`/`Nat` without wrap-around:
  no claim drives a counter anywhere near its machine bound.
- `std::atomic` fields guarded by the object's mutex are ordinary fields;
  each public operation of the C++ class runs atomically under that mutex,
  so an operation is one Lean function from state to state and the
  interleaving of operations is a list of operations applied in order.
- Wall-clock bookkeeping that no claim observes (ThreadLastActivity
  timestamps, call-stack capture, log strings) is not modelled.
-/

namespace UnrealSharp

/-- Hot-reload lifecycle state (`FCSAtomicHotReloadState::EHotReloadState`). -/
inductive EHotReloadState where
  | Idle
  | Preparing
  | InProgress
  | Finalizing
  | Failed
  | Cancelled
deriving DecidableEq, Repr

/-- Hot-reload kind (`FCSAtomicHotReloadState::EHotReloadType`). -/
inductive EHotReloadType where
  | Full
  | Incremental
  | Assembly
  | Method
deriving DecidableEq, Repr

/-- Statistics block (`FCSAtomicHotReloadState::FHotReloadStats`). -/
structure FHotReloadStats where
  TotalHotReloads : Int := 0
  SuccessfulHotReloads : Int := 0
  FailedHotReloads : Int := 0
  CancelledHotReloads : Int := 0
  AverageHotReloadTime : Rat := 0
  MaxHotReloadTime : Rat := 0
  ConcurrentHotReloadAttempts : Int := 0
  QueuedHotReloads : Int := 0
deriving DecidableEq, Repr

/-- `FHotReloadStats::RecordHotReload(bSuccess, TimeMs)`. -/
def FHotReloadStats.RecordHotReload (st : FHotReloadStats) (bSuccess : Bool)
    (TimeMs : Rat) : FHotReloadStats :=
  let st := { st with TotalHotReloads := st.TotalHotReloads + 1 }
  if bSuccess then
    let st := { st with SuccessfulHotReloads := st.SuccessfulHotReloads + 1 }
    let NewAvg := st.AverageHotReloadTime * (9 / 10 : Rat) + TimeMs * (1 / 10 : Rat)
    let st := { st with AverageHotReloadTime := NewAvg }
    if TimeMs > st.MaxHotReloadTime then
      { st with MaxHotReloadTime := TimeMs }
    else st
  else
    { st with FailedHotReloads := st.FailedHotReloads + 1 }

/-- The atomic hot-reload state machine (`FCSAtomicHotReloadState`), with the
field defaults of the class declaration. `bResetTaskPending` records that the
background task scheduled by `EmergencyStopAllHotReloads` (the `AsyncTask`
lambda that clears `bEmergencyStop` and returns the state to Idle after 5 s)
has been scheduled and has not run yet: the asynchronous lambda is embedded as
a separate operation enabled while this flag is set. -/
structure FCSAtomicHotReloadState where
  CurrentState : EHotReloadState := .Idle
  CurrentType : EHotReloadType := .Full
  ActiveHotReloads : Int := 0
  PendingHotReloads : Int := 0
  CurrentHotReloadId : Nat := 0
  bIsSystemReady : Bool := true
  bEmergencyStop : Bool := false
  Stats : FHotReloadStats := {}
  MaxConcurrentHotReloads : Int := 1
  HotReloadTimeoutSeconds : Rat := 60
  bEnableHotReloadQueue : Bool := true
  bResetTaskPending : Bool := false
deriving DecidableEq, Repr

namespace FCSAtomicHotReloadState

/-- `IsSystemReady()`. -/
def IsSystemReady (s : FCSAtomicHotReloadState) : Bool :=
  s.bIsSystemReady && !s.bEmergencyStop

/-- `IsHotReloading()`. -/
def IsHotReloading (s : FCSAtomicHotReloadState) : Bool :=
  s.CurrentState != .Idle

/-- `GenerateNewHotReloadId()`: `fetch_add(1) + 1` on the id counter. -/
def GenerateNewHotReloadId (s : FCSAtomicHotReloadState) :
    Nat × FCSAtomicHotReloadState :=
  (s.CurrentHotReloadId + 1, { s with CurrentHotReloadId := s.CurrentHotReloadId + 1 })

/-- `Initialize()`: resets every state field and the statistics. The
configuration constants and any already-scheduled emergency-reset task are
untouched (the C++ `Initialize` does not cancel the `AsyncTask`). -/
def Initialize (s : FCSAtomicHotReloadState) : FCSAtomicHotReloadState :=
  { s with
    CurrentState := .Idle
    CurrentType := .Full
    ActiveHotReloads := 0
    PendingHotReloads := 0
    CurrentHotReloadId := 0
    bIsSystemReady := true
    bEmergencyStop := false
    Stats := {} }

/-- `AtomicBeginHotReload(Type, OutHotReloadId)` (the C++ parameter `Type` is a Lean keyword, renamed `InType`): the returned pair carries the
C++ return value and the value written to `OutHotReloadId` (`none` on the paths
that leave the out-parameter unassigned). In a run serialized by `StateMutex`
the `compare_exchange_strong` from Idle always succeeds, since the state was
just read as Idle under the same mutex. -/
def AtomicBeginHotReload (s : FCSAtomicHotReloadState) (InType : EHotReloadType) :
    (Bool × Option Nat) × FCSAtomicHotReloadState :=
  if !s.IsSystemReady then ((false, none), s)
  else
    let CurrentStateValue := s.CurrentState
    if CurrentStateValue ≠ .Idle then
      if s.bEnableHotReloadQueue ∧ s.PendingHotReloads < 10 then
        ((false, none), { s with PendingHotReloads := s.PendingHotReloads + 1 })
      else
        ((false, none), s)
    else if s.ActiveHotReloads ≥ s.MaxConcurrentHotReloads then
      ((false, none), s)
    else
      let s := { s with CurrentState := .Preparing, CurrentType := InType }
      let (OutHotReloadId, s) := s.GenerateNewHotReloadId
      let s := { s with ActiveHotReloads := s.ActiveHotReloads + 1 }
      let s := { s with CurrentState := .InProgress }
      ((true, some OutHotReloadId), s)

/-- `AtomicEndHotReload(HotReloadId, bSuccess, ElapsedTimeMs)`. -/
def AtomicEndHotReload (s : FCSAtomicHotReloadState) (_HotReloadId : Nat)
    (bSuccess : Bool) (ElapsedTimeMs : Rat) : Bool × FCSAtomicHotReloadState :=
  if s.CurrentState ≠ .InProgress ∧ s.CurrentState ≠ .Finalizing then
    (false, s)
  else
    let s := { s with CurrentState := .Finalizing }
    let s := { s with Stats := s.Stats.RecordHotReload bSuccess ElapsedTimeMs }
    let s := { s with ActiveHotReloads := s.ActiveHotReloads - 1 }
    let s :=
      if s.PendingHotReloads > 0 then
        { s with PendingHotReloads := s.PendingHotReloads - 1 }
      else s
    (true, { s with CurrentState := .Idle })

/-- `AtomicCancelHotReload(HotReloadId)`. -/
def AtomicCancelHotReload (s : FCSAtomicHotReloadState) (_HotReloadId : Nat) :
    Bool × FCSAtomicHotReloadState :=
  if s.CurrentState = .Idle then
    (true, s)
  else
    let s := { s with CurrentState := .Cancelled }
    let s := { s with Stats :=
      { s.Stats with CancelledHotReloads := s.Stats.CancelledHotReloads + 1 } }
    let s :=
      if s.ActiveHotReloads > 0 then
        { s with ActiveHotReloads := s.ActiveHotReloads - 1 }
      else s
    (true, { s with CurrentState := .Idle })

/-- `EmergencyStopAllHotReloads()` up to the point where the function returns:
raises the emergency flag, forces the state to Cancelled, zeroes both counters
and schedules the delayed reset task. -/
def EmergencyStopAllHotReloads (s : FCSAtomicHotReloadState) :
    FCSAtomicHotReloadState :=
  { s with
    bEmergencyStop := true
    CurrentState := .Cancelled
    ActiveHotReloads := 0
    PendingHotReloads := 0
    bResetTaskPending := true }

/-- The body of the `AsyncTask` lambda scheduled by
`EmergencyStopAllHotReloads` (runs after the 5 s sleep): clears the emergency
flag and returns the state to Idle. -/
def EmergencyStopDelayedReset (s : FCSAtomicHotReloadState) :
    FCSAtomicHotReloadState :=
  { s with
    bEmergencyStop := false
    CurrentState := .Idle
    bResetTaskPending := false }

end FCSAtomicHotReloadState

/-- One public operation of the hot-reload state machine, as invoked by a
caller. `resetOp` is the delayed background reset scheduled by
`emergencyStopOp`. -/
inductive HotReloadOp where
  | initOp
  | beginOp (InType : EHotReloadType)
  | endOp (HotReloadId : Nat) (bSuccess : Bool) (ElapsedTimeMs : Rat)
  | cancelOp (HotReloadId : Nat)
  | emergencyStopOp
  | resetOp
deriving DecidableEq, Repr

/-- Apply one operation to the state machine (return values discarded: only
the post-state is observed). `resetOp` fires only while a delayed reset task
is actually scheduled; otherwise there is no task to run and it is a no-op. -/
def applyHotReloadOp (s : FCSAtomicHotReloadState) (op : HotReloadOp) :
    FCSAtomicHotReloadState :=
  match op with
  | .initOp => s.Initialize
  | .beginOp t => (s.AtomicBeginHotReload t).2
  | .endOp id ok t => (s.AtomicEndHotReload id ok t).2
  | .cancelOp id => (s.AtomicCancelHotReload id).2
  | .emergencyStopOp => s.EmergencyStopAllHotReloads
  | .resetOp => if s.bResetTaskPending then s.EmergencyStopDelayedReset else s

/-- The state of the global instance after construction (all field defaults). -/
def initialHotReloadState : FCSAtomicHotReloadState := {}

/-- Run a sequence of public operations from a start state. -/
def runHotReloadOps (s : FCSAtomicHotReloadState) (ops : List HotReloadOp) :
    FCSAtomicHotReloadState :=
  ops.foldl applyHotReloadOp s

/-- The operations of the claim's list other than the emergency stop and its
delayed reset. -/
def HotReloadOp.isRegular : HotReloadOp → Bool
  | .emergencyStopOp => false
  | .resetOp => false
  | _ => true

/-- Strengthened reachability invariant for runs without the emergency stop:
the machine is either Idle with no active reload or InProgress with exactly
one. -/
def RegularHotReloadInv (s : FCSAtomicHotReloadState) : Prop :=
  (s.CurrentState = .Idle ∧ s.ActiveHotReloads = 0) ∨
  (s.CurrentState = .InProgress ∧ s.ActiveHotReloads = 1)

lemma regularHotReloadInv_apply (s : FCSAtomicHotReloadState) (op : HotReloadOp)
    (hop : op.isRegular = true) (h : RegularHotReloadInv s) :
    RegularHotReloadInv (applyHotReloadOp s op) := by
  cases op with
  | initOp =>
      exact Or.inl ⟨rfl, rfl⟩
  | beginOp t =>
      simp only [applyHotReloadOp, FCSAtomicHotReloadState.AtomicBeginHotReload,
        FCSAtomicHotReloadState.GenerateNewHotReloadId]
      split_ifs with h1 h2 h3 h4 <;>
        rcases h with ⟨hs, ha⟩ | ⟨hs, ha⟩ <;>
        simp_all [RegularHotReloadInv]
  | endOp id ok t =>
      simp only [applyHotReloadOp, FCSAtomicHotReloadState.AtomicEndHotReload]
      split_ifs with h1 h2 <;>
        rcases h with ⟨hs, ha⟩ | ⟨hs, ha⟩ <;>
        simp_all [RegularHotReloadInv]
  | cancelOp id =>
      simp only [applyHotReloadOp, FCSAtomicHotReloadState.AtomicCancelHotReload]
      split_ifs with h1 h2 <;>
        rcases h with ⟨hs, ha⟩ | ⟨hs, ha⟩ <;>
        simp_all [RegularHotReloadInv]
  | emergencyStopOp => exact absurd hop (by decide)
  | resetOp => exact absurd hop (by decide)

lemma regularHotReloadInv_run (ops : List HotReloadOp) :
    ∀ s : FCSAtomicHotReloadState, (∀ op ∈ ops, op.isRegular = true) →
      RegularHotReloadInv s → RegularHotReloadInv (runHotReloadOps s ops) := by
  induction ops with
  | nil => exact fun s _ h => h
  | cons op rest ih =>
      intro s hops h
      have hstep := regularHotReloadInv_apply s op (hops op (by simp)) h
      have htail : ∀ o ∈ rest, o.isRegular = true := fun o ho => hops o (by simp [ho])
      exact ih (applyHotReloadOp s op) htail hstep

/-- C1 (amended): for every observation point reachable by a sequence of the
public operations Initialize, AtomicBeginHotReload, AtomicEndHotReload and
AtomicCancelHotReload, the state equals Idle if and only if the active
hot-reload count equals 0. (The claim as frozen also admits
EmergencyStopAllHotReloads into the sequence; the counterexample shows the
equivalence is broken at the observation point right after an emergency stop,
before its delayed reset runs.) -/
theorem hotReload_idle_iff_zero_active_regular (ops : List HotReloadOp)
    (hops : ∀ op ∈ ops, op.isRegular = true) :
    ((runHotReloadOps initialHotReloadState ops).CurrentState = .Idle ↔
      (runHotReloadOps initialHotReloadState ops).ActiveHotReloads = 0) := by
  have h := regularHotReloadInv_run ops initialHotReloadState hops (Or.inl ⟨rfl, rfl⟩)
  rcases h with ⟨h1, h2⟩ | ⟨h1, h2⟩ <;> rw [h1, h2] <;> simp

/-- C1 witness: after Initialize followed by a successful begin, the state is
InProgress and the active count is 1, and the invariant equivalence holds. -/
theorem hotReload_idle_iff_zero_active_regular_witness :
    ((runHotReloadOps initialHotReloadState
        [.initOp, .beginOp .Full]).CurrentState = .Idle ↔
      (runHotReloadOps initialHotReloadState
        [.initOp, .beginOp .Full]).ActiveHotReloads = 0) :=
  hotReload_idle_iff_zero_active_regular [.initOp, .beginOp .Full] (by decide)

/-- C1 counterexample: the observation point reached by Initialize followed by
EmergencyStopAllHotReloads (before the delayed reset runs) has state Cancelled
and active count 0, so "state equals Idle iff the active count equals 0" is
false there. -/
theorem hotReload_invariant_fails_after_emergency_stop :
    (runHotReloadOps initialHotReloadState
        [.initOp, .emergencyStopOp]).CurrentState = .Cancelled ∧
    (runHotReloadOps initialHotReloadState
        [.initOp, .emergencyStopOp]).ActiveHotReloads = 0 ∧
    ¬ ((runHotReloadOps initialHotReloadState
          [.initOp, .emergencyStopOp]).CurrentState = .Idle ↔
        (runHotReloadOps initialHotReloadState
          [.initOp, .emergencyStopOp]).ActiveHotReloads = 0) := by
  refine ⟨rfl, rfl, ?_⟩
  intro hiff
  exact absurd (hiff.mpr rfl) (by decide)

/-- C7: AtomicEndHotReload returns true exactly from InProgress or Finalizing;
a rejected call leaves the whole state (state, counts, statistics) unchanged;
a successful call records the statistics, decrements the active count,
decrements the pending count when positive and returns the state to Idle. -/
theorem atomicEndHotReload_spec (s : FCSAtomicHotReloadState) (id : Nat)
    (bSuccess : Bool) (t : Rat) :
    ((s.AtomicEndHotReload id bSuccess t).1 = true ↔
        (s.CurrentState = .InProgress ∨ s.CurrentState = .Finalizing)) ∧
    ((s.AtomicEndHotReload id bSuccess t).1 = false →
        (s.AtomicEndHotReload id bSuccess t).2 = s) ∧
    ((s.AtomicEndHotReload id bSuccess t).1 = true →
        ((s.AtomicEndHotReload id bSuccess t).2.CurrentState = .Idle ∧
         (s.AtomicEndHotReload id bSuccess t).2.Stats =
           s.Stats.RecordHotReload bSuccess t ∧
         (s.AtomicEndHotReload id bSuccess t).2.ActiveHotReloads =
           s.ActiveHotReloads - 1 ∧
         (s.AtomicEndHotReload id bSuccess t).2.PendingHotReloads =
           (if s.PendingHotReloads > 0 then s.PendingHotReloads - 1
            else s.PendingHotReloads))) := by
  simp only [FCSAtomicHotReloadState.AtomicEndHotReload]
  split_ifs with h1 h2 <;> simp_all <;> tauto

/-- C9: AtomicCancelHotReload always returns true; from Idle it changes
nothing; from a non-Idle state it increments the cancellation counter,
decrements the active count when positive, leaves the pending count alone and
leaves the state Idle. -/
theorem atomicCancelHotReload_spec (s : FCSAtomicHotReloadState) (id : Nat) :
    (s.AtomicCancelHotReload id).1 = true ∧
    (s.CurrentState = .Idle → (s.AtomicCancelHotReload id).2 = s) ∧
    (s.CurrentState ≠ .Idle →
        ((s.AtomicCancelHotReload id).2.CurrentState = .Idle ∧
         (s.AtomicCancelHotReload id).2.Stats.CancelledHotReloads =
           s.Stats.CancelledHotReloads + 1 ∧
         (s.AtomicCancelHotReload id).2.ActiveHotReloads =
           (if s.ActiveHotReloads > 0 then s.ActiveHotReloads - 1
            else s.ActiveHotReloads) ∧
         (s.AtomicCancelHotReload id).2.PendingHotReloads =
           s.PendingHotReloads)) := by
  simp only [FCSAtomicHotReloadState.AtomicCancelHotReload]
  split_ifs with h1 h2 <;> simp_all

/-- A concrete machine busy with one reload, queueing enabled (the default)
and no pending requests. -/
def busyQueueState : FCSAtomicHotReloadState :=
  { CurrentState := .InProgress, ActiveHotReloads := 1 }

/-- The same busy machine with queueing disabled. -/
def busyNoQueueState : FCSAtomicHotReloadState :=
  { CurrentState := .InProgress, ActiveHotReloads := 1,
    bEnableHotReloadQueue := false }

/-- C8 counterexample: on a busy machine the "queued" path and the hard
"busy" path of AtomicBeginHotReload return the same value (false, with the
out-parameter unassigned), so the queued indication is not distinguishable
from a hard failure by the caller; only the pending count differs. -/
theorem atomicBeginHotReload_queued_indistinguishable :
    (busyQueueState.AtomicBeginHotReload .Full).1 =
      (busyNoQueueState.AtomicBeginHotReload .Full).1 ∧
    (busyQueueState.AtomicBeginHotReload .Full).1 = (false, none) ∧
    (busyQueueState.AtomicBeginHotReload .Full).2.PendingHotReloads = 1 ∧
    (busyNoQueueState.AtomicBeginHotReload .Full).2 = busyNoQueueState := by
  refine ⟨rfl, rfl, rfl, ?_⟩
  decide

/-- C8 (amended): on a ready machine whose state is not Idle,
AtomicBeginHotReload returns false with the out-parameter unassigned in both
the queued and the busy case — the two outcomes are distinguishable only
through the pending count, not through the returned value. When queueing is
enabled and fewer than 10 requests are pending it increments the pending
count and changes nothing else (no session started, no id allocated, state
unchanged); otherwise it changes nothing at all. -/
theorem atomicBeginHotReload_busy_spec (s : FCSAtomicHotReloadState)
    (t : EHotReloadType) (hReady : s.IsSystemReady = true)
    (hState : s.CurrentState ≠ .Idle) :
    (s.AtomicBeginHotReload t).1 = (false, none) ∧
    (s.AtomicBeginHotReload t).2.CurrentState = s.CurrentState ∧
    (s.AtomicBeginHotReload t).2.ActiveHotReloads = s.ActiveHotReloads ∧
    (s.AtomicBeginHotReload t).2.CurrentHotReloadId = s.CurrentHotReloadId ∧
    (s.bEnableHotReloadQueue = true ∧ s.PendingHotReloads < 10 →
        (s.AtomicBeginHotReload t).2 =
          { s with PendingHotReloads := s.PendingHotReloads + 1 }) ∧
    (¬ (s.bEnableHotReloadQueue = true ∧ s.PendingHotReloads < 10) →
        (s.AtomicBeginHotReload t).2 = s) := by
  simp only [FCSAtomicHotReloadState.AtomicBeginHotReload, hReady]
  split_ifs with h1 h2 <;> simp_all

/-- C8 witness: the amended statement applied to the concrete busy machine
with queueing enabled. -/
theorem atomicBeginHotReload_busy_spec_witness :
    (busyQueueState.AtomicBeginHotReload .Full).1 = (false, none) :=
  (atomicBeginHotReload_busy_spec busyQueueState .Full (by decide) (by decide)).1

/-! The bounded callback gateway (`FCSThreadSafeManagedCallbacks`). -/

/-- Result of a gateway call (`FCSThreadSafeManagedCallbacks::ECallbackResult`). -/
inductive ECallbackResult where
  | Success
  | Failed
  | Timeout
  | TooManyConcurrentCalls
  | SystemNotReady
deriving DecidableEq, Repr

/-- Gateway statistics (`FCSThreadSafeManagedCallbacks::FCallbackStats`). -/
structure FCallbackStats where
  TotalCallbacksExecuted : Int := 0
  SuccessfulCallbacks : Int := 0
  FailedCallbacks : Int := 0
  TimeoutCallbacks : Int := 0
  RejectedCallbacks : Int := 0
  CurrentActiveCalls : Int := 0
  MaxConcurrentCalls : Int := 0
  AverageExecutionTime : Rat := 0
  MaxExecutionTime : Rat := 0
deriving DecidableEq, Repr

/-- `FCallbackStats::RecordExecution(Result, ExecutionTimeMs)`. -/
def FCallbackStats.RecordExecution (st : FCallbackStats)
    (Result : ECallbackResult) (ExecutionTimeMs : Rat) : FCallbackStats :=
  let st := { st with TotalCallbacksExecuted := st.TotalCallbacksExecuted + 1 }
  let st :=
    match Result with
    | .Success => { st with SuccessfulCallbacks := st.SuccessfulCallbacks + 1 }
    | .Failed => { st with FailedCallbacks := st.FailedCallbacks + 1 }
    | .Timeout => { st with TimeoutCallbacks := st.TimeoutCallbacks + 1 }
    | .TooManyConcurrentCalls =>
        { st with RejectedCallbacks := st.RejectedCallbacks + 1 }
    | .SystemNotReady => st
  if Result = .Success then
    let st := { st with AverageExecutionTime :=
      st.AverageExecutionTime * (9 / 10 : Rat) + ExecutionTimeMs * (1 / 10 : Rat) }
    if ExecutionTimeMs > st.MaxExecutionTime then
      { st with MaxExecutionTime := ExecutionTimeMs }
    else st
  else st

/-- `FCallbackStats::RecordConcurrentCall(ActiveCalls)`. -/
def FCallbackStats.RecordConcurrentCall (st : FCallbackStats)
    (ActiveCalls : Int) : FCallbackStats :=
  if ActiveCalls > st.MaxConcurrentCalls then
    { st with MaxConcurrentCalls := ActiveCalls }
  else st

/-- Gateway configuration (`FCSThreadSafeManagedCallbacks::FConcurrencyConfig`)
with the defaults of the struct declaration. -/
structure FConcurrencyConfig where
  MaxConcurrentCallbacks : Int := 64
  CallbackTimeoutSeconds : Rat := 30
  CallbackQueueSize : Int := 256
  bEnableStatistics : Bool := true
  bEnableTimeout : Bool := true
  bLogSlowCallbacks : Bool := true
  SlowCallbackThresholdMs : Rat := 100
deriving DecidableEq, Repr

/-- The callback gateway (`FCSThreadSafeManagedCallbacks`), field defaults as
declared. The `ActiveCallbackIds` set is tracking bookkeeping no claim
observes and is not modelled. -/
structure FCSThreadSafeManagedCallbacks where
  bIsInitialized : Bool := false
  bIsShuttingDown : Bool := false
  Stats : FCallbackStats := {}
  Config : FConcurrencyConfig := {}
  NextCallbackId : Nat := 1
deriving DecidableEq, Repr

/-- Outcome of one wrapped foreign (managed-runtime) call: the value it
returned together with the elapsed wall-clock milliseconds the gateway
measures around it, or an exception caught by the gateway's catch-all
handler. The outcome is an input of the embedding: the managed runtime is
outside the modelled code. -/
inductive ForeignOutcome (α : Type) where
  | ret (value : α) (elapsedMs : Rat)
  | exn (elapsedMs : Rat)
deriving DecidableEq, Repr

namespace FCSThreadSafeManagedCallbacks

/-- `Initialize(InConfig)`. -/
def Initialize (m : FCSThreadSafeManagedCallbacks) (InConfig : FConcurrencyConfig) :
    Bool × FCSThreadSafeManagedCallbacks :=
  if m.bIsInitialized then (true, m)
  else
    (true, { m with
      Config := InConfig
      Stats := {}
      bIsShuttingDown := false
      bIsInitialized := true })

/-- `CanAcceptNewCallback()`. -/
def CanAcceptNewCallback (m : FCSThreadSafeManagedCallbacks) : Bool :=
  if !m.bIsInitialized || m.bIsShuttingDown then false
  else decide (m.Stats.CurrentActiveCalls < m.Config.MaxConcurrentCallbacks)

/-- `RecordCallbackResult(Result, ExecutionTimeMs)` (the condition-variable
notification has no modelled effect). -/
def RecordCallbackResult (m : FCSThreadSafeManagedCallbacks)
    (Result : ECallbackResult) (ExecutionTimeMs : Rat) :
    FCSThreadSafeManagedCallbacks :=
  if m.Config.bEnableStatistics then
    { m with Stats := m.Stats.RecordExecution Result ExecutionTimeMs }
  else m

/-- `FScopedCallbackTracker` construction: allocates a callback id, increments
the active-call counter and records the concurrency high-water mark. -/
def trackerEnter (m : FCSThreadSafeManagedCallbacks) :
    FCSThreadSafeManagedCallbacks :=
  let ActiveCount := m.Stats.CurrentActiveCalls + 1
  let m := { m with
    NextCallbackId := m.NextCallbackId + 1
    Stats := { m.Stats with CurrentActiveCalls := ActiveCount } }
  { m with Stats := m.Stats.RecordConcurrentCall ActiveCount }

/-- `FScopedCallbackTracker` destruction: decrements the active-call counter
(slow-callback logging has no modelled effect). -/
def trackerExit (m : FCSThreadSafeManagedCallbacks) :
    FCSThreadSafeManagedCallbacks :=
  { m with Stats :=
    { m.Stats with CurrentActiveCalls := m.Stats.CurrentActiveCalls - 1 } }

/-- `SafeCreateNewManagedObject(Object, TypeHandle, Error, OutResult)`: the
returned pair carries the call result and the value written to `OutResult`
(the GC handle, modelled by its `IntPtr` integer; `none` when unassigned). -/
def SafeCreateNewManagedObject (m : FCSThreadSafeManagedCallbacks)
    (call : ForeignOutcome Int) :
    (ECallbackResult × Option Int) × FCSThreadSafeManagedCallbacks :=
  if !m.CanAcceptNewCallback then ((.TooManyConcurrentCalls, none), m)
  else
    let m1 := m.trackerEnter
    match call with
    | .ret OutResult ElapsedTime =>
        let Result : ECallbackResult := if OutResult ≠ 0 then .Success else .Failed
        ((Result, some OutResult),
          (m1.RecordCallbackResult Result ElapsedTime).trackerExit)
    | .exn ElapsedTime =>
        ((.Failed, none), (m1.RecordCallbackResult .Failed ElapsedTime).trackerExit)

/-- `SafeCreateNewManagedObjectWrapper(Object, TypeHandle, OutResult)`. -/
def SafeCreateNewManagedObjectWrapper (m : FCSThreadSafeManagedCallbacks)
    (call : ForeignOutcome Int) :
    (ECallbackResult × Option Int) × FCSThreadSafeManagedCallbacks :=
  if !m.CanAcceptNewCallback then ((.TooManyConcurrentCalls, none), m)
  else
    let m1 := m.trackerEnter
    match call with
    | .ret OutResult ElapsedTime =>
        let Result : ECallbackResult := if OutResult ≠ 0 then .Success else .Failed
        ((Result, some OutResult),
          (m1.RecordCallbackResult Result ElapsedTime).trackerExit)
    | .exn ElapsedTime =>
        ((.Failed, none), (m1.RecordCallbackResult .Failed ElapsedTime).trackerExit)

/-- `SafeInvokeManagedEvent(EventPtr, Params, Result, Exception, World,
OutResult)`: the managed invocation returns an `int` status, 0 for success;
after it returns, an over-ceiling elapsed time reclassifies the result as
Timeout when timeout checking is enabled. -/
def SafeInvokeManagedEvent (m : FCSThreadSafeManagedCallbacks)
    (call : ForeignOutcome Int) :
    (ECallbackResult × Option Int) × FCSThreadSafeManagedCallbacks :=
  if !m.CanAcceptNewCallback then ((.TooManyConcurrentCalls, none), m)
  else
    let m1 := m.trackerEnter
    match call with
    | .ret OutResult ElapsedTime =>
        if m1.Config.bEnableTimeout ∧
            ElapsedTime > m1.Config.CallbackTimeoutSeconds * 1000 then
          ((.Timeout, some OutResult),
            (m1.RecordCallbackResult .Timeout ElapsedTime).trackerExit)
        else
          let Result : ECallbackResult := if OutResult = 0 then .Success else .Failed
          ((Result, some OutResult),
            (m1.RecordCallbackResult Result ElapsedTime).trackerExit)
    | .exn ElapsedTime =>
        ((.Failed, none), (m1.RecordCallbackResult .Failed ElapsedTime).trackerExit)

/-- `SafeInvokeDelegate(DelegateHandle, OutResult)`: same timeout
reclassification as the managed-event invocation. -/
def SafeInvokeDelegate (m : FCSThreadSafeManagedCallbacks)
    (call : ForeignOutcome Int) :
    (ECallbackResult × Option Int) × FCSThreadSafeManagedCallbacks :=
  if !m.CanAcceptNewCallback then ((.TooManyConcurrentCalls, none), m)
  else
    let m1 := m.trackerEnter
    match call with
    | .ret OutResult ElapsedTime =>
        if m1.Config.bEnableTimeout ∧
            ElapsedTime > m1.Config.CallbackTimeoutSeconds * 1000 then
          ((.Timeout, some OutResult),
            (m1.RecordCallbackResult .Timeout ElapsedTime).trackerExit)
        else
          let Result : ECallbackResult := if OutResult = 0 then .Success else .Failed
          ((Result, some OutResult),
            (m1.RecordCallbackResult Result ElapsedTime).trackerExit)
    | .exn ElapsedTime =>
        ((.Failed, none), (m1.RecordCallbackResult .Failed ElapsedTime).trackerExit)

/-- `SafeLookupMethod(Assembly, MethodName, OutResult)`: the looked-up method
pointer is modelled by its address, 0 standing for null. No timeout check. -/
def SafeLookupMethod (m : FCSThreadSafeManagedCallbacks)
    (call : ForeignOutcome Nat) :
    (ECallbackResult × Option Nat) × FCSThreadSafeManagedCallbacks :=
  if !m.CanAcceptNewCallback then ((.TooManyConcurrentCalls, none), m)
  else
    let m1 := m.trackerEnter
    match call with
    | .ret OutResult ElapsedTime =>
        let Result : ECallbackResult := if OutResult ≠ 0 then .Success else .Failed
        ((Result, some OutResult),
          (m1.RecordCallbackResult Result ElapsedTime).trackerExit)
    | .exn ElapsedTime =>
        ((.Failed, none), (m1.RecordCallbackResult .Failed ElapsedTime).trackerExit)

/-- `SafeLookupType(Assembly, TypeName, OutResult)`. No timeout check. -/
def SafeLookupType (m : FCSThreadSafeManagedCallbacks)
    (call : ForeignOutcome Nat) :
    (ECallbackResult × Option Nat) × FCSThreadSafeManagedCallbacks :=
  if !m.CanAcceptNewCallback then ((.TooManyConcurrentCalls, none), m)
  else
    let m1 := m.trackerEnter
    match call with
    | .ret OutResult ElapsedTime =>
        let Result : ECallbackResult := if OutResult ≠ 0 then .Success else .Failed
        ((Result, some OutResult),
          (m1.RecordCallbackResult Result ElapsedTime).trackerExit)
    | .exn ElapsedTime =>
        ((.Failed, none), (m1.RecordCallbackResult .Failed ElapsedTime).trackerExit)

/-- `SafeDispose(Handle, AssemblyHandle)`: a void call, Success unless the
wrapped call throws. No timeout check. -/
def SafeDispose (m : FCSThreadSafeManagedCallbacks)
    (call : ForeignOutcome Unit) :
    ECallbackResult × FCSThreadSafeManagedCallbacks :=
  if !m.CanAcceptNewCallback then (.TooManyConcurrentCalls, m)
  else
    let m1 := m.trackerEnter
    match call with
    | .ret _ ElapsedTime =>
        (.Success, (m1.RecordCallbackResult .Success ElapsedTime).trackerExit)
    | .exn ElapsedTime =>
        (.Failed, (m1.RecordCallbackResult .Failed ElapsedTime).trackerExit)

/-- `SafeFreeHandle(Handle)`: a void call, Success unless the wrapped call
throws. No timeout check. -/
def SafeFreeHandle (m : FCSThreadSafeManagedCallbacks)
    (call : ForeignOutcome Unit) :
    ECallbackResult × FCSThreadSafeManagedCallbacks :=
  if !m.CanAcceptNewCallback then (.TooManyConcurrentCalls, m)
  else
    let m1 := m.trackerEnter
    match call with
    | .ret _ ElapsedTime =>
        (.Success, (m1.RecordCallbackResult .Success ElapsedTime).trackerExit)
    | .exn ElapsedTime =>
        (.Failed, (m1.RecordCallbackResult .Failed ElapsedTime).trackerExit)

end FCSThreadSafeManagedCallbacks

/-- One gateway `Safe*` entry point together with the behavior of the foreign
call it wraps. -/
inductive GatewayCall where
  | createNewManagedObject (call : ForeignOutcome Int)
  | createNewManagedObjectWrapper (call : ForeignOutcome Int)
  | invokeManagedEvent (call : ForeignOutcome Int)
  | invokeDelegate (call : ForeignOutcome Int)
  | lookupMethod (call : ForeignOutcome Nat)
  | lookupType (call : ForeignOutcome Nat)
  | dispose (call : ForeignOutcome Unit)
  | freeHandle (call : ForeignOutcome Unit)
deriving DecidableEq, Repr

/-- Dispatch a gateway call, keeping the result and the post-state (the
out-parameter is dropped: admission and statistics do not depend on it). -/
def SafeCall (m : FCSThreadSafeManagedCallbacks) (c : GatewayCall) :
    ECallbackResult × FCSThreadSafeManagedCallbacks :=
  match c with
  | .createNewManagedObject call =>
      let r := m.SafeCreateNewManagedObject call; (r.1.1, r.2)
  | .createNewManagedObjectWrapper call =>
      let r := m.SafeCreateNewManagedObjectWrapper call; (r.1.1, r.2)
  | .invokeManagedEvent call =>
      let r := m.SafeInvokeManagedEvent call; (r.1.1, r.2)
  | .invokeDelegate call =>
      let r := m.SafeInvokeDelegate call; (r.1.1, r.2)
  | .lookupMethod call =>
      let r := m.SafeLookupMethod call; (r.1.1, r.2)
  | .lookupType call =>
      let r := m.SafeLookupType call; (r.1.1, r.2)
  | .dispose call => m.SafeDispose call
  | .freeHandle call => m.SafeFreeHandle call

lemma canAcceptNewCallback_false_iff (m : FCSThreadSafeManagedCallbacks) :
    m.CanAcceptNewCallback = false ↔
      (m.Stats.CurrentActiveCalls ≥ m.Config.MaxConcurrentCallbacks ∨
       m.bIsInitialized = false ∨ m.bIsShuttingDown = true) := by
  cases hI : m.bIsInitialized <;> cases hS : m.bIsShuttingDown <;>
    simp [FCSThreadSafeManagedCallbacks.CanAcceptNewCallback, hI, hS]

lemma safeCall_rejected (m : FCSThreadSafeManagedCallbacks) (c : GatewayCall)
    (h : m.CanAcceptNewCallback = false) :
    SafeCall m c = (.TooManyConcurrentCalls, m) := by
  cases c <;>
    simp [SafeCall, FCSThreadSafeManagedCallbacks.SafeCreateNewManagedObject,
      FCSThreadSafeManagedCallbacks.SafeCreateNewManagedObjectWrapper,
      FCSThreadSafeManagedCallbacks.SafeInvokeManagedEvent,
      FCSThreadSafeManagedCallbacks.SafeInvokeDelegate,
      FCSThreadSafeManagedCallbacks.SafeLookupMethod,
      FCSThreadSafeManagedCallbacks.SafeLookupType,
      FCSThreadSafeManagedCallbacks.SafeDispose,
      FCSThreadSafeManagedCallbacks.SafeFreeHandle, h]

lemma safeCall_admitted (m : FCSThreadSafeManagedCallbacks) (c : GatewayCall)
    (h : m.CanAcceptNewCallback = true) :
    (SafeCall m c).1 ≠ .TooManyConcurrentCalls := by
  cases c <;> rename_i call <;> cases call <;>
    simp only [SafeCall, FCSThreadSafeManagedCallbacks.SafeCreateNewManagedObject,
      FCSThreadSafeManagedCallbacks.SafeCreateNewManagedObjectWrapper,
      FCSThreadSafeManagedCallbacks.SafeInvokeManagedEvent,
      FCSThreadSafeManagedCallbacks.SafeInvokeDelegate,
      FCSThreadSafeManagedCallbacks.SafeLookupMethod,
      FCSThreadSafeManagedCallbacks.SafeLookupType,
      FCSThreadSafeManagedCallbacks.SafeDispose,
      FCSThreadSafeManagedCallbacks.SafeFreeHandle, h,
      Bool.not_true, Bool.false_eq_true, if_false] <;>
    (try split_ifs) <;> simp

/-- C2: every gateway Safe* call is rejected with TooManyConcurrentCalls — the
wrapped foreign call not invoked and the gateway state untouched — exactly
when the active-call count has reached MaxConcurrentCallbacks (default 64) or
the system is uninitialized or shutting down; below the limit on an
initialized, non-shutting-down gateway the call is admitted (never rejected
with TooManyConcurrentCalls). -/
theorem gateway_admission_control (m : FCSThreadSafeManagedCallbacks)
    (c : GatewayCall) :
    ((m.Stats.CurrentActiveCalls ≥ m.Config.MaxConcurrentCallbacks ∨
        m.bIsInitialized = false ∨ m.bIsShuttingDown = true) →
      SafeCall m c = (.TooManyConcurrentCalls, m)) ∧
    ((m.Stats.CurrentActiveCalls < m.Config.MaxConcurrentCallbacks ∧
        m.bIsInitialized = true ∧ m.bIsShuttingDown = false) →
      (SafeCall m c).1 ≠ .TooManyConcurrentCalls) := by
  constructor
  · intro h
    exact safeCall_rejected m c ((canAcceptNewCallback_false_iff m).mpr h)
  · rintro ⟨h1, h2, h3⟩
    apply safeCall_admitted
    cases hc : m.CanAcceptNewCallback with
    | true => rfl
    | false =>
        rcases (canAcceptNewCallback_false_iff m).mp hc with h | h | h
        · omega
        · rw [h2] at h; cases h
        · rw [h3] at h; cases h

/-- C10: a gateway call rejected at admission changes no statistics field: the
post-state equals the pre-state, so in particular RejectedCallbacks,
TotalCallbacksExecuted and CurrentActiveCalls are unchanged. -/
theorem gateway_rejection_frame (m : FCSThreadSafeManagedCallbacks)
    (c : GatewayCall) (h : m.CanAcceptNewCallback = false) :
    (SafeCall m c).1 = .TooManyConcurrentCalls ∧
    (SafeCall m c).2.Stats.RejectedCallbacks = m.Stats.RejectedCallbacks ∧
    (SafeCall m c).2.Stats.TotalCallbacksExecuted =
      m.Stats.TotalCallbacksExecuted ∧
    (SafeCall m c).2.Stats.CurrentActiveCalls = m.Stats.CurrentActiveCalls ∧
    (SafeCall m c).2.Stats = m.Stats ∧
    (SafeCall m c).2 = m := by
  rw [safeCall_rejected m c h]
  exact ⟨rfl, rfl, rfl, rfl, rfl, rfl⟩

/-- The gateway before initialization: all field defaults. -/
def defaultGateway : FCSThreadSafeManagedCallbacks := {}

/-- C10 witness: the uninitialized gateway rejects a delegate invocation and
its statistics are untouched. -/
theorem gateway_rejection_frame_witness :
    (SafeCall defaultGateway (.invokeDelegate (.ret 0 0))).1 =
      .TooManyConcurrentCalls ∧
    (SafeCall defaultGateway (.invokeDelegate (.ret 0 0))).2 = defaultGateway :=
  ⟨(gateway_rejection_frame defaultGateway (.invokeDelegate (.ret 0 0))
      (by decide)).1,
   (gateway_rejection_frame defaultGateway (.invokeDelegate (.ret 0 0))
      (by decide)).2.2.2.2.2⟩

/-- A gateway initialized with the default configuration (MaxConcurrent 64,
ceiling 30 s, timeout checking enabled). -/
def initializedGateway : FCSThreadSafeManagedCallbacks :=
  (FCSThreadSafeManagedCallbacks.Initialize {} {}).2

/-- C3 counterexample: on the default-initialized gateway, a method lookup
whose foreign call takes 31000 ms — beyond the 30 s ceiling, timeout checking
enabled — and returns a non-null pointer yields Success, not Timeout: the
lookup wrappers never reclassify to Timeout. -/
theorem lookupMethod_never_timeout_counterexample :
    initializedGateway.Config.bEnableTimeout = true ∧
    (31000 : Rat) > initializedGateway.Config.CallbackTimeoutSeconds * 1000 ∧
    (initializedGateway.SafeLookupMethod (.ret 1 31000)).1.1 = .Success := by
  refine ⟨rfl, by norm_num [initializedGateway,
    FCSThreadSafeManagedCallbacks.Initialize], ?_⟩
  rfl

/-- C3 (amended): the soft-timeout reclassification applies exactly to the
delegate and managed-event invocation wrappers: on an admitted call with
timeout checking enabled and elapsed time beyond the ceiling they return
Timeout even though the wrapped call completed; the construction, lookup and
disposal wrappers never return Timeout, whatever the elapsed time. -/
theorem gateway_soft_timeout_spec (m : FCSThreadSafeManagedCallbacks)
    (out : Int) (ptr : Nat) (t : Rat)
    (hAccept : m.CanAcceptNewCallback = true)
    (hTimeout : m.Config.bEnableTimeout = true)
    (hElapsed : t > m.Config.CallbackTimeoutSeconds * 1000) :
    (m.SafeInvokeDelegate (.ret out t)).1.1 = .Timeout ∧
    (m.SafeInvokeManagedEvent (.ret out t)).1.1 = .Timeout ∧
    (m.SafeLookupMethod (.ret ptr t)).1.1 ≠ .Timeout ∧
    (m.SafeLookupType (.ret ptr t)).1.1 ≠ .Timeout ∧
    (m.SafeCreateNewManagedObject (.ret out t)).1.1 ≠ .Timeout ∧
    (m.SafeCreateNewManagedObjectWrapper (.ret out t)).1.1 ≠ .Timeout ∧
    (m.SafeDispose (.ret () t)).1 = .Success ∧
    (m.SafeFreeHandle (.ret () t)).1 = .Success := by
  refine ⟨?_, ?_, ?_, ?_, ?_, ?_, ?_, ?_⟩
  · simp only [FCSThreadSafeManagedCallbacks.SafeInvokeDelegate, hAccept,
      Bool.not_true, Bool.false_eq_true, if_false]
    rw [if_pos ⟨hTimeout, hElapsed⟩]
  · simp only [FCSThreadSafeManagedCallbacks.SafeInvokeManagedEvent, hAccept,
      Bool.not_true, Bool.false_eq_true, if_false]
    rw [if_pos ⟨hTimeout, hElapsed⟩]
  · simp [FCSThreadSafeManagedCallbacks.SafeLookupMethod, hAccept]
    split_ifs <;> simp
  · simp [FCSThreadSafeManagedCallbacks.SafeLookupType, hAccept]
    split_ifs <;> simp
  · simp [FCSThreadSafeManagedCallbacks.SafeCreateNewManagedObject, hAccept]
    split_ifs <;> simp
  · simp [FCSThreadSafeManagedCallbacks.SafeCreateNewManagedObjectWrapper, hAccept]
    split_ifs <;> simp
  · simp [FCSThreadSafeManagedCallbacks.SafeDispose, hAccept]
  · simp [FCSThreadSafeManagedCallbacks.SafeFreeHandle, hAccept]

/-- C3 witness: the amended statement at the default-initialized gateway with
a 31 s foreign call. -/
theorem gateway_soft_timeout_spec_witness :
    (initializedGateway.SafeInvokeDelegate (.ret 0 31000)).1.1 = .Timeout :=
  (gateway_soft_timeout_spec initializedGateway 0 1 31000 (by decide) rfl
    (by norm_num [initializedGateway,
      FCSThreadSafeManagedCallbacks.Initialize])).1

/-! The concurrency-violation monitor (`FCSConcurrencyMonitor`). -/

/-- Violation kinds (`FCSConcurrencyMonitor::EViolationType`). -/
inductive EViolationType where
  | RaceCondition
  | DeadlockPotential
  | UnsafeConcurrentAccess
  | ExcessiveLocking
  | LockOrderViolation
  | ThreadUnsafeUsage
  | MemoryOrdering
  | ResourceLeak
deriving DecidableEq, Repr

/-- Access kinds (`FCSConcurrencyMonitor::EAccessPattern`). -/
inductive EAccessPattern where
  | Read
  | Write
  | ReadWrite
  | Atomic
deriving DecidableEq, Repr

/-- Severities (`FCSConcurrencyMonitor::ESeverity`, a `uint8` enum
Info=0 .. Critical=3). -/
inductive ESeverity where
  | Info
  | Warning
  | Error
  | Critical
deriving DecidableEq, Repr

/-- The numeric value of the severity enum. -/
def ESeverity.toNat : ESeverity → Nat
  | .Info => 0
  | .Warning => 1
  | .Error => 2
  | .Critical => 3

/-- The `Severity < MinReportSeverity` comparison of `ReportViolation`
(enum compared by numeric value). -/
def sevLt (a b : ESeverity) : Bool := a.toNat < b.toNat

/-- A resource access record (`FCSConcurrencyMonitor::FResourceAccess`); the
`high_resolution_clock` time point is modelled as milliseconds, the captured
call stack is not modelled. -/
structure FResourceAccess where
  ResourceName : String := ""
  ThreadId : Nat := 0
  AccessPattern : EAccessPattern := .Read
  TimestampMs : Rat := 0
  ResourceAddress : Nat := 0
  AccessCount : Int := 1
deriving DecidableEq, Repr

/-- A violation report (`FCSConcurrencyMonitor::FViolationReport`); the
description text, detection time and call stack are not modelled. The C++
field `Type` is a Lean keyword, renamed `ReportType`. -/
structure FViolationReport where
  ReportType : EViolationType := .RaceCondition
  Severity : ESeverity := .Warning
  ResourceName : String := ""
  InvolvedThreads : List Nat := []
deriving DecidableEq, Repr

/-- Monitor configuration (`FCSConcurrencyMonitor::FMonitoringConfig`) with
the declared defaults (the log-file path is not modelled). -/
structure FMonitoringConfig where
  bEnableRaceConditionDetection : Bool := true
  bEnableDeadlockDetection : Bool := true
  bEnableLockOrderValidation : Bool := true
  bEnableResourceTracking : Bool := true
  bEnablePerformanceMonitoring : Bool := true
  bEnableCallStackCapture : Bool := false
  DetectionIntervalSeconds : Rat := 1
  MaxViolationReports : Int := 1000
  MaxResourceHistorySize : Int := 10000
  ResourceAccessTimeoutSeconds : Rat := 5
  MinReportSeverity : ESeverity := .Warning
  bLogViolationsToConsole : Bool := true
  bLogViolationsToFile : Bool := false
deriving DecidableEq, Repr

/-- Monitor statistics (`FCSConcurrencyMonitor::FMonitoringStats`). -/
structure FMonitoringStats where
  TotalViolationsDetected : Int := 0
  RaceConditionViolations : Int := 0
  DeadlockViolations : Int := 0
  LockOrderViolations : Int := 0
  ResourceLeakViolations : Int := 0
  ActiveResourceTracking : Int := 0
  MonitoredThreads : Int := 0
  AverageDetectionTimeMs : Rat := 0
  MaxDetectionTimeMs : Rat := 0
deriving DecidableEq, Repr

/-- `FMonitoringStats::RecordViolation(Type, DetectionTimeMs)`. -/
def FMonitoringStats.RecordViolation (st : FMonitoringStats)
    (ViolationKind : EViolationType) (DetectionTimeMs : Rat) : FMonitoringStats :=
  let st := { st with TotalViolationsDetected := st.TotalViolationsDetected + 1 }
  let st :=
    match ViolationKind with
    | .RaceCondition =>
        { st with RaceConditionViolations := st.RaceConditionViolations + 1 }
    | .DeadlockPotential =>
        { st with DeadlockViolations := st.DeadlockViolations + 1 }
    | .LockOrderViolation =>
        { st with LockOrderViolations := st.LockOrderViolations + 1 }
    | .ResourceLeak =>
        { st with ResourceLeakViolations := st.ResourceLeakViolations + 1 }
    | _ => st
  let st := { st with AverageDetectionTimeMs :=
    st.AverageDetectionTimeMs * (95 / 100 : Rat) + DetectionTimeMs * (5 / 100 : Rat) }
  if DetectionTimeMs > st.MaxDetectionTimeMs then
    { st with MaxDetectionTimeMs := DetectionTimeMs }
  else st

/-- The violation monitor (`FCSConcurrencyMonitor`). Resources and lock
objects are modelled by their addresses (`Nat`, 0 standing for null); the
`unordered_map`s keyed by thread id are association lists; per-thread
name/activity bookkeeping and the monitoring thread handle are not
modelled. -/
structure FCSConcurrencyMonitor where
  bIsMonitoring : Bool := false
  bIsInitialized : Bool := false
  bShouldStop : Bool := false
  Config : FMonitoringConfig := {}
  Stats : FMonitoringStats := {}
  ThreadLockOrder : List (Nat × List Nat) := []
  ViolationReports : List FViolationReport := []
deriving DecidableEq, Repr

/-- Thread lookup in the `ThreadLockOrder` map (`operator[]`
default-constructs an empty vector for a missing key). -/
def lookupLockOrder (t : List (Nat × List Nat)) (ThreadId : Nat) : List Nat :=
  match t.find? (fun p => p.1 == ThreadId) with
  | some p => p.2
  | none => []

/-- Update (or insert) a thread's entry in the `ThreadLockOrder` map. -/
def setLockOrder (t : List (Nat × List Nat)) (ThreadId : Nat)
    (locks : List Nat) : List (Nat × List Nat) :=
  match t with
  | [] => [(ThreadId, locks)]
  | p :: rest =>
      if p.1 == ThreadId then (ThreadId, locks) :: rest
      else p :: setLockOrder rest ThreadId locks

namespace FCSConcurrencyMonitor

/-- `ReportViolation(Report)`: drop the report when its severity is below the
configured minimum; otherwise evict the oldest half of a full ring buffer,
append the report and record it in the statistics (console logging has no
modelled effect). -/
def ReportViolation (m : FCSConcurrencyMonitor) (Report : FViolationReport) :
    FCSConcurrencyMonitor :=
  if sevLt Report.Severity m.Config.MinReportSeverity then m
  else
    let reports :=
      if (m.ViolationReports.length : Int) ≥ m.Config.MaxViolationReports then
        m.ViolationReports.drop (m.ViolationReports.length / 2)
      else m.ViolationReports
    let m := { m with ViolationReports := reports ++ [Report] }
    { m with Stats := m.Stats.RecordViolation Report.ReportType 0 }

/-- `RecordLockAcquisition(LockObject, LockName)` as executed by thread
`ThreadId`: push the lock, then compare the new lock's address with the one
acquired immediately before it (`LockOrder[size-2]`) and report a Warning
LockOrderViolation when it is lower. -/
def RecordLockAcquisition (m : FCSConcurrencyMonitor) (ThreadId : Nat)
    (LockObject : Nat) (LockName : String) : FCSConcurrencyMonitor :=
  if !m.bIsMonitoring || LockObject == 0 then m
  else if m.Config.bEnableLockOrderValidation then
    let LockOrder := lookupLockOrder m.ThreadLockOrder ThreadId ++ [LockObject]
    let m := { m with
      ThreadLockOrder := setLockOrder m.ThreadLockOrder ThreadId LockOrder }
    if LockOrder.length ≥ 2 then
      let PrevLock := (LockOrder[LockOrder.length - 2]?).getD 0
      let CurrLock := (LockOrder[LockOrder.length - 1]?).getD 0
      if CurrLock < PrevLock then
        m.ReportViolation
          { ReportType := .LockOrderViolation, Severity := .Warning,
            ResourceName := LockName, InvolvedThreads := [ThreadId] }
      else m
    else m
  else m

/-- `RecordLockRelease(LockObject, LockName)` as executed by thread
`ThreadId`: erase the first occurrence of the lock from the thread's list. -/
def RecordLockRelease (m : FCSConcurrencyMonitor) (ThreadId : Nat)
    (LockObject : Nat) : FCSConcurrencyMonitor :=
  if !m.bIsMonitoring || LockObject == 0 then m
  else if m.Config.bEnableLockOrderValidation then
    let LockOrder := lookupLockOrder m.ThreadLockOrder ThreadId
    { m with
      ThreadLockOrder :=
        setLockOrder m.ThreadLockOrder ThreadId (LockOrder.erase LockObject) }
  else m

/-- `IsSystemHealthy()`: healthy iff no stored Critical report and fewer than
100 total detected violations (the C++ counts Critical reports with a loop;
the filter length is that count). -/
def IsSystemHealthy (m : FCSConcurrencyMonitor) : Bool :=
  let TotalViolations := m.Stats.TotalViolationsDetected
  let CriticalViolations :=
    (m.ViolationReports.filter (fun r => r.Severity == .Critical)).length
  CriticalViolations == 0 && decide (TotalViolations < 100)

end FCSConcurrencyMonitor

/-- The reports the two per-pair checks of `AnalyzeResourceAccessPatterns`
generate for one adjacent pair (`Access1` = `AccessHistory[i]`, `Access2` =
`AccessHistory[i+1]`), in the order they are passed to `ReportViolation`:
first the concurrent-write check (both patterns Write or ReadWrite, time
difference below 50 ms, different threads), then the read-write-conflict
check (exactly one side Write, below 100 ms, different threads). -/
def racePairReports (Access1 Access2 : FResourceAccess) :
    List FViolationReport :=
  (if Access1.ThreadId ≠ Access2.ThreadId ∧
      (Access1.AccessPattern = .Write ∨ Access1.AccessPattern = .ReadWrite) ∧
      (Access2.AccessPattern = .Write ∨ Access2.AccessPattern = .ReadWrite) ∧
      Access2.TimestampMs - Access1.TimestampMs < 50 then
    [{ ReportType := .RaceCondition, Severity := .Error,
       ResourceName := Access1.ResourceName,
       InvolvedThreads := [Access1.ThreadId, Access2.ThreadId] }]
  else []) ++
  (if Access1.ThreadId ≠ Access2.ThreadId ∧
      ((Access1.AccessPattern = .Write ∧ Access2.AccessPattern ≠ .Write) ∨
       (Access1.AccessPattern ≠ .Write ∧ Access2.AccessPattern = .Write)) ∧
      Access2.TimestampMs - Access1.TimestampMs < 100 then
    [{ ReportType := .UnsafeConcurrentAccess, Severity := .Warning,
       ResourceName := Access1.ResourceName,
       InvolvedThreads := [Access1.ThreadId, Access2.ThreadId] }]
  else [])

/-- The window the analysis loop inspects: the most recent
`min(size, 10)` records (`i` runs from `size - RecentAccessWindow` to
`size - 2`, pairing `i` with `i+1`). -/
def recentWindow (AccessHistory : List FResourceAccess) :
    List FResourceAccess :=
  AccessHistory.drop (AccessHistory.length - min AccessHistory.length 10)

/-- The reports generated for every adjacent pair of a record list. -/
def pairReportsAll : List FResourceAccess → List FViolationReport
  | a :: b :: rest => racePairReports a b ++ pairReportsAll (b :: rest)
  | _ => []

/-- All adjacent pairs of a list, in order. -/
def adjacentPairs {α : Type} : List α → List (α × α)
  | a :: b :: rest => (a, b) :: adjacentPairs (b :: rest)
  | _ => []

/-- `AnalyzeResourceAccessPatterns(Resource, AccessHistory)`: the reports it
passes to `ReportViolation`, in order. A history shorter than 2 records
generates nothing. -/
def AnalyzeResourceAccessPatterns (AccessHistory : List FResourceAccess) :
    List FViolationReport :=
  if AccessHistory.length < 2 then []
  else pairReportsAll (recentWindow AccessHistory)

lemma two_le_length_of_mem_adjacentPairs {α : Type} {xs : List α} {p : α × α}
    (h : p ∈ adjacentPairs xs) : 2 ≤ xs.length := by
  match xs with
  | [] => simp [adjacentPairs] at h
  | [a] => simp [adjacentPairs] at h
  | a :: b :: rest => simp only [List.length_cons]; omega

lemma mem_pairReportsAll {xs : List FResourceAccess} {a b : FResourceAccess}
    {r : FViolationReport} (hmem : (a, b) ∈ adjacentPairs xs)
    (hr : r ∈ racePairReports a b) : r ∈ pairReportsAll xs := by
  induction xs with
  | nil => simp [adjacentPairs] at hmem
  | cons x rest ih =>
      cases rest with
      | nil => simp [adjacentPairs] at hmem
      | cons y rest2 =>
          simp only [adjacentPairs, List.mem_cons] at hmem
          rcases hmem with heq | hmem
          · injection heq with h1 h2
            subst h1; subst h2
            exact List.mem_append_left _ hr
          · exact List.mem_append_right _ (ih hmem)

/-- C4: within the most recent window of at most 10 records, every adjacent
pair from different threads whose patterns are both Write or ReadWrite with
timestamps under 50 ms apart generates the Error-severity RaceCondition
report; a two-record history of Writes from different threads 200 ms apart
generates nothing at all; and every adjacent in-window pair from different
threads with exactly one Write-pattern side under 100 ms apart generates the
Warning-severity UnsafeConcurrentAccess report. -/
theorem analyzeResourceAccessPatterns_spec :
    (∀ (AccessHistory : List FResourceAccess) (a1 a2 : FResourceAccess),
      (a1, a2) ∈ adjacentPairs (recentWindow AccessHistory) →
      a1.ThreadId ≠ a2.ThreadId →
      (a1.AccessPattern = .Write ∨ a1.AccessPattern = .ReadWrite) →
      (a2.AccessPattern = .Write ∨ a2.AccessPattern = .ReadWrite) →
      a2.TimestampMs - a1.TimestampMs < 50 →
      ({ ReportType := .RaceCondition, Severity := .Error,
         ResourceName := a1.ResourceName,
         InvolvedThreads := [a1.ThreadId, a2.ThreadId] } : FViolationReport) ∈
        AnalyzeResourceAccessPatterns AccessHistory) ∧
    (∀ a1 a2 : FResourceAccess,
      a1.ThreadId ≠ a2.ThreadId →
      a1.AccessPattern = .Write → a2.AccessPattern = .Write →
      a2.TimestampMs - a1.TimestampMs = 200 →
      AnalyzeResourceAccessPatterns [a1, a2] = []) ∧
    (∀ (AccessHistory : List FResourceAccess) (a1 a2 : FResourceAccess),
      (a1, a2) ∈ adjacentPairs (recentWindow AccessHistory) →
      a1.ThreadId ≠ a2.ThreadId →
      ((a1.AccessPattern = .Write ∧ a2.AccessPattern ≠ .Write) ∨
       (a1.AccessPattern ≠ .Write ∧ a2.AccessPattern = .Write)) →
      a2.TimestampMs - a1.TimestampMs < 100 →
      ({ ReportType := .UnsafeConcurrentAccess, Severity := .Warning,
         ResourceName := a1.ResourceName,
         InvolvedThreads := [a1.ThreadId, a2.ThreadId] } : FViolationReport) ∈
        AnalyzeResourceAccessPatterns AccessHistory) := by
  refine ⟨?_, ?_, ?_⟩
  · intro h a1 a2 hmem hth hp1 hp2 ht
    have hwin : 2 ≤ (recentWindow h).length :=
      two_le_length_of_mem_adjacentPairs hmem
    have hlen : 2 ≤ h.length := by
      have : (recentWindow h).length ≤ h.length := by
        simp only [recentWindow, List.length_drop]; omega
      omega
    unfold AnalyzeResourceAccessPatterns
    rw [if_neg (by omega)]
    apply mem_pairReportsAll hmem
    unfold racePairReports
    rw [if_pos ⟨hth, hp1, hp2, ht⟩]
    simp
  · intro a1 a2 hth hp1 hp2 ht
    have hstep : AnalyzeResourceAccessPatterns [a1, a2] =
        racePairReports a1 a2 ++ [] := by
      simp [AnalyzeResourceAccessPatterns, recentWindow, pairReportsAll]
    rw [hstep, List.append_nil]
    have hno50 : ¬ (a1.ThreadId ≠ a2.ThreadId ∧
        (a1.AccessPattern = .Write ∨ a1.AccessPattern = .ReadWrite) ∧
        (a2.AccessPattern = .Write ∨ a2.AccessPattern = .ReadWrite) ∧
        a2.TimestampMs - a1.TimestampMs < 50) := by
      rintro ⟨-, -, -, h4⟩
      rw [ht] at h4
      norm_num at h4
    have hnoconf : ¬ (a1.ThreadId ≠ a2.ThreadId ∧
        ((a1.AccessPattern = .Write ∧ a2.AccessPattern ≠ .Write) ∨
         (a1.AccessPattern ≠ .Write ∧ a2.AccessPattern = .Write)) ∧
        a2.TimestampMs - a1.TimestampMs < 100) := by
      rintro ⟨-, h2, -⟩
      rcases h2 with ⟨hw1, hw2⟩ | ⟨hw1, hw2⟩
      · exact hw2 hp2
      · exact hw1 hp1
    unfold racePairReports
    rw [if_neg hno50, if_neg hnoconf]
    rfl
  · intro h a1 a2 hmem hth hconf ht
    have hwin : 2 ≤ (recentWindow h).length :=
      two_le_length_of_mem_adjacentPairs hmem
    have hlen : 2 ≤ h.length := by
      have : (recentWindow h).length ≤ h.length := by
        simp only [recentWindow, List.length_drop]; omega
      omega
    unfold AnalyzeResourceAccessPatterns
    rw [if_neg (by omega)]
    apply mem_pairReportsAll hmem
    unfold racePairReports
    apply List.mem_append_right
    rw [if_pos ⟨hth, hconf, ht⟩]
    simp

/-- First record of the race-detection witness history: thread 1 writes
resource R at t = 0 ms. -/
def raceAccessA : FResourceAccess :=
  { ResourceName := "R", ThreadId := 1, AccessPattern := .Write,
    TimestampMs := 0 }

/-- Second record of the race-detection witness history: thread 2 writes
resource R at t = 10 ms. -/
def raceAccessB : FResourceAccess :=
  { ResourceName := "R", ThreadId := 2, AccessPattern := .Write,
    TimestampMs := 10 }

/-- C4 witness: the first part instantiated on a two-record history (two
writes from different threads 10 ms apart) generates the race report. -/
theorem analyzeResourceAccessPatterns_spec_witness :
    ({ ReportType := .RaceCondition, Severity := .Error, ResourceName := "R",
       InvolvedThreads := [1, 2] } : FViolationReport) ∈
      AnalyzeResourceAccessPatterns [raceAccessA, raceAccessB] :=
  analyzeResourceAccessPatterns_spec.1 [raceAccessA, raceAccessB]
    raceAccessA raceAccessB (by decide) (by decide) (by decide) (by decide)
    (by norm_num [raceAccessA, raceAccessB])

lemma concat_getD_sub_two (xs : List Nat) (x : Nat) (h : xs ≠ []) :
    ((xs ++ [x])[(xs ++ [x]).length - 2]?).getD 0 = (xs.getLast?).getD 0 := by
  have hlt : xs.length - 1 < xs.length := by
    cases xs with
    | nil => exact absurd rfl h
    | cons a t => simp
  have h2 : (xs ++ [x]).length - 2 = xs.length - 1 := by simp
  rw [h2, List.getElem?_append, if_pos hlt, List.getLast?_eq_getElem? xs]

lemma concat_getD_sub_one (xs : List Nat) (x : Nat) :
    ((xs ++ [x])[(xs ++ [x]).length - 1]?).getD 0 = x := by
  have h2 : (xs ++ [x]).length - 1 = xs.length := by simp
  rw [h2]
  simp

lemma lookupLockOrder_setLockOrder (t : List (Nat × List Nat)) (ThreadId : Nat)
    (locks : List Nat) :
    lookupLockOrder (setLockOrder t ThreadId locks) ThreadId = locks := by
  induction t with
  | nil => simp [setLockOrder, lookupLockOrder]
  | cons p rest ih =>
      by_cases h : p.1 = ThreadId
      · simp [setLockOrder, lookupLockOrder, h]
      · have hb : (p.1 == ThreadId) = false := by simp [h]
        simp only [setLockOrder, hb, Bool.false_eq_true, if_false]
        simpa [lookupLockOrder, List.find?_cons, hb] using ih

lemma reportViolation_threadLockOrder (m : FCSConcurrencyMonitor)
    (r : FViolationReport) :
    (m.ReportViolation r).ThreadLockOrder = m.ThreadLockOrder := by
  unfold FCSConcurrencyMonitor.ReportViolation
  split_ifs <;> rfl

lemma reportViolation_emits (m : FCSConcurrencyMonitor) (r : FViolationReport)
    (hsev : sevLt r.Severity m.Config.MinReportSeverity = false) :
    (m.ReportViolation r).ViolationReports.getLast? = some r ∧
    (m.ReportViolation r).Stats = m.Stats.RecordViolation r.ReportType 0 := by
  unfold FCSConcurrencyMonitor.ReportViolation
  rw [hsev]
  simp

lemma recordViolation_lockOrderViolations (st : FMonitoringStats) (t : Rat) :
    (st.RecordViolation .LockOrderViolation t).LockOrderViolations =
      st.LockOrderViolations + 1 := by
  unfold FMonitoringStats.RecordViolation
  dsimp only
  split_ifs <;> rfl

/-- C5 (amended): while monitoring with lock-order validation on (and
Warning reports above the configured minimum severity), an acquisition
appends the lock to the thread's order list, and emits the Warning-severity
LockOrderViolation report exactly when the new lock's address is lower than
the address of the lock this thread acquired most recently (the last entry of
its current list) — not when it is lower than some other lock it still
holds. -/
theorem recordLockAcquisition_spec (m : FCSConcurrencyMonitor)
    (ThreadId LockObject : Nat) (LockName : String)
    (hMon : m.bIsMonitoring = true) (hLock : LockObject ≠ 0)
    (hVal : m.Config.bEnableLockOrderValidation = true)
    (hSev : sevLt .Warning m.Config.MinReportSeverity = false) :
    lookupLockOrder
        (m.RecordLockAcquisition ThreadId LockObject LockName).ThreadLockOrder
        ThreadId =
      lookupLockOrder m.ThreadLockOrder ThreadId ++ [LockObject] ∧
    (∀ PrevLock,
      (lookupLockOrder m.ThreadLockOrder ThreadId).getLast? = some PrevLock →
      (LockObject < PrevLock →
        (m.RecordLockAcquisition ThreadId LockObject
            LockName).ViolationReports.getLast? =
          some { ReportType := .LockOrderViolation, Severity := .Warning,
                 ResourceName := LockName, InvolvedThreads := [ThreadId] } ∧
        (m.RecordLockAcquisition ThreadId LockObject
            LockName).Stats.LockOrderViolations =
          m.Stats.LockOrderViolations + 1) ∧
      (¬ LockObject < PrevLock →
        (m.RecordLockAcquisition ThreadId LockObject
            LockName).ViolationReports = m.ViolationReports)) ∧
    (lookupLockOrder m.ThreadLockOrder ThreadId = [] →
      (m.RecordLockAcquisition ThreadId LockObject
          LockName).ViolationReports = m.ViolationReports) := by
  have hb0 : (LockObject == 0) = false := by simp [hLock]
  unfold FCSConcurrencyMonitor.RecordLockAcquisition
  simp only [hMon, hb0, hVal, Bool.not_true, Bool.or_false, Bool.false_eq_true,
    if_false, if_true]
  refine ⟨?_, ?_, ?_⟩
  · split_ifs <;>
      simp [reportViolation_threadLockOrder, lookupLockOrder_setLockOrder]
  · intro PrevLock hlast
    have hne : lookupLockOrder m.ThreadLockOrder ThreadId ≠ [] := by
      intro hnil
      rw [hnil] at hlast
      simp at hlast
    have hlen : (lookupLockOrder m.ThreadLockOrder ThreadId ++
        [LockObject]).length ≥ 2 := by
      have := List.length_pos.mpr hne
      simp only [List.length_append, List.length_cons, List.length_nil]
      omega
    rw [if_pos hlen, concat_getD_sub_one, concat_getD_sub_two _ _ hne, hlast,
      Option.getD_some]
    constructor
    · intro hlt
      rw [if_pos hlt]
      refine ⟨(reportViolation_emits _ _ hSev).1, ?_⟩
      rw [(reportViolation_emits _ _ hSev).2]
      exact recordViolation_lockOrderViolations m.Stats 0
    · intro hlt
      rw [if_neg hlt]
  · intro hnil
    rw [hnil]
    have : (([] : List Nat) ++ [LockObject]).length = 1 := by simp
    rw [if_neg (by omega)]

/-- A freshly initialized, monitoring monitor with the default
configuration. -/
def monitoringMonitor : FCSConcurrencyMonitor :=
  { bIsMonitoring := true, bIsInitialized := true }

/-- C5 witness: on the fresh monitor, after thread 1 acquires the lock at
address 20, acquiring the lock at address 5 emits the Warning
LockOrderViolation report. -/
theorem recordLockAcquisition_spec_witness :
    ((monitoringMonitor.RecordLockAcquisition 1 20 "A").RecordLockAcquisition
        1 5 "B").ViolationReports.getLast? =
      some { ReportType := .LockOrderViolation, Severity := .Warning,
             ResourceName := "B", InvolvedThreads := [1] } :=
  (((recordLockAcquisition_spec (monitoringMonitor.RecordLockAcquisition 1 20 "A")
      1 5 "B" rfl (by decide) rfl rfl).2.1 20 (by decide)).1 (by decide)).1

/-- C5 counterexample: thread 1 acquires locks at addresses 20, then 5 (a
violation is reported), then 10. At the third acquisition the thread still
holds the lock at address 20 and 10 < 20, yet no report is emitted — the
acquisition-time check compares only against the immediately preceding lock
(address 5), not against every lock the thread already holds. -/
theorem recordLockAcquisition_misses_held_lock :
    (lookupLockOrder
        (((monitoringMonitor.RecordLockAcquisition 1 20 "A"
          ).RecordLockAcquisition 1 5 "B").RecordLockAcquisition 1 10 "C"
          ).ThreadLockOrder 1 = [20, 5, 10]) ∧
    (20 ∈ lookupLockOrder
        ((monitoringMonitor.RecordLockAcquisition 1 20 "A"
          ).RecordLockAcquisition 1 5 "B").ThreadLockOrder 1 ∧ 10 < 20) ∧
    (((monitoringMonitor.RecordLockAcquisition 1 20 "A"
        ).RecordLockAcquisition 1 5 "B").RecordLockAcquisition 1 10 "C"
        ).ViolationReports =
      ((monitoringMonitor.RecordLockAcquisition 1 20 "A"
        ).RecordLockAcquisition 1 5 "B").ViolationReports ∧
    (((monitoringMonitor.RecordLockAcquisition 1 20 "A"
        ).RecordLockAcquisition 1 5 "B").RecordLockAcquisition 1 10 "C"
        ).Stats.LockOrderViolations =
      ((monitoringMonitor.RecordLockAcquisition 1 20 "A"
        ).RecordLockAcquisition 1 5 "B").Stats.LockOrderViolations := by
  refine ⟨by decide, ⟨by decide, by decide⟩, ?_, ?_⟩ <;> decide

/-- C6 counterexample: a monitor with no stored reports (hence no Critical
one) and a total detected-violation count of exactly 100 is reported
unhealthy, although the claim says a count of exactly 100 is still
healthy. -/
theorem isSystemHealthy_at_hundred_counterexample :
    (({ Stats := { TotalViolationsDetected := 100 } } :
        FCSConcurrencyMonitor)).ViolationReports = [] ∧
    (({ Stats := { TotalViolationsDetected := 100 } } :
        FCSConcurrencyMonitor)).Stats.TotalViolationsDetected = 100 ∧
    (({ Stats := { TotalViolationsDetected := 100 } } :
        FCSConcurrencyMonitor)).IsSystemHealthy = false := by
  refine ⟨rfl, rfl, ?_⟩
  decide

/-- C6 (amended): IsSystemHealthy returns false exactly when a
Critical-severity report is stored or the total detected-violation count has
reached 100 (the comparison is `count < 100`, so exactly 100 already reads as
unhealthy). -/
theorem isSystemHealthy_false_iff (m : FCSConcurrencyMonitor) :
    m.IsSystemHealthy = false ↔
      ((∃ r ∈ m.ViolationReports, r.Severity = .Critical) ∨
        m.Stats.TotalViolationsDetected ≥ 100) := by
  unfold FCSConcurrencyMonitor.IsSystemHealthy
  simp only [Bool.and_eq_false_iff, beq_eq_false_iff_ne, ne_eq,
    decide_eq_false_iff_not, not_lt, List.length_eq_zero, ge_iff_le]
  constructor
  · rintro (h | h)
    · left
      by_contra hno
      push_neg at hno
      apply h
      rw [List.filter_eq_nil_iff]
      intro r hr
      simp [hno r hr]
    · right
      exact h
  · rintro (⟨r, hr, hc⟩ | h)
    · left
      intro hzero
      rw [List.filter_eq_nil_iff] at hzero
      exact absurd (by simp [hc]) (hzero r hr)
    · right
      exact h

end UnrealSharp
